import Mathlib

/-!
Shallow embedding of the OAuth authorization layer of this repository: the
delegating (proxy) OAuth server provider (`proxyProvider.ts`, both the eager
variant whose endpoints are fixed at construction and the earlier variant
that lazily fetches upstream discovery metadata), the bearer-token
middleware (`requireBearerAuth`), and the RFC 8414 metadata assembly
(`metadataHandler`, in both its proxy-aware and its issuer-only form).

Network effects are made explicit: every operation that may call `fetch`
takes the upstream response as a parameter (an oracle from requests to
responses) and additionally returns the list of HTTP requests it issued, so
that "no upstream call is observed" is a statement about that list.
JavaScript truthiness of optional strings (absent or empty both falsy) is
modelled by `optTruthy`.  String splitting, lowercasing and form encoding
are implemented over character lists so that every definition evaluates
inside the kernel.
-/

/-- JavaScript truthiness of an optional string: `undefined` and the empty
string are both falsy. -/
def optTruthy : Option String → Bool
  | none => false
  | some s => s != ""

/-- JavaScript truthiness of `xs?.length` for an optional array. -/
def listTruthy : Option (List String) → Bool
  | none => false
  | some l => l.length != 0

/-- Helper for `jsSplit`, walking the character list. -/
def jsSplitAux (sep : Char) : List Char → List Char → List String
  | [], acc => [String.mk acc.reverse]
  | c :: rest, acc =>
    if c = sep then String.mk acc.reverse :: jsSplitAux sep rest []
    else jsSplitAux sep rest (c :: acc)

/-- JavaScript `String.prototype.split` with a single-character separator:
consecutive separators yield empty segments and the result is never empty. -/
def jsSplit (sep : Char) (s : String) : List String :=
  jsSplitAux sep s.data []

/-- ASCII lowercasing, modelling `String.prototype.toLowerCase` on the ASCII
strings this code compares. -/
def strToLower (s : String) : String :=
  String.mk (s.data.map Char.toLower)

/-- Join a list of strings with a separator, modelling `Array.prototype.join`. -/
def joinWith (sep : String) : List String → String
  | [] => ""
  | [x] => x
  | x :: y :: rest => x ++ sep ++ joinWith sep (y :: rest)

/-- Uppercase hexadecimal digit for percent-encoding. -/
def hexDigit (n : Nat) : Char :=
  if n < 10 then Char.ofNat (48 + n) else Char.ofNat (55 + n)

/-- UTF-8 byte sequence of a character, as a list of byte values. -/
def utf8Bytes (c : Char) : List Nat :=
  let n := c.toNat
  if n < 128 then [n]
  else if n < 2048 then [192 + n / 64, 128 + n % 64]
  else if n < 65536 then [224 + n / 4096, 128 + (n / 64) % 64, 128 + n % 64]
  else [240 + n / 262144, 128 + (n / 4096) % 64, 128 + (n / 64) % 64, 128 + n % 64]

/-- One byte under the `application/x-www-form-urlencoded` serializer used by
`URLSearchParams`: alphanumerics and `*`, `-`, `.`, `_` pass through, space
becomes `+`, and every other byte is percent-encoded with uppercase hex. -/
def formEncodeByte (b : Nat) : String :=
  if b = 32 then "+"
  else if (48 ≤ b ∧ b ≤ 57) ∨ (65 ≤ b ∧ b ≤ 90) ∨ (97 ≤ b ∧ b ≤ 122)
      ∨ b = 42 ∨ b = 45 ∨ b = 46 ∨ b = 95 then
    String.singleton (Char.ofNat b)
  else
    String.mk [Char.ofNat 37, hexDigit (b / 16), hexDigit (b % 16)]

/-- Form-encode a string as `URLSearchParams` does. -/
def formEncode (s : String) : String :=
  String.join (s.data.map (fun c => String.join ((utf8Bytes c).map formEncodeByte)))

/-- Serialization of a `URLSearchParams` value, modelling its `toString`. -/
def serializeForm (ps : List (String × String)) : String :=
  joinWith "&" (ps.map (fun p => formEncode p.1 ++ "=" ++ formEncode p.2))

/-- The `URLSearchParams.set` method: replace the value when the key is
already present, append the pair otherwise.  (The keys used by this code are
pairwise distinct, so replacing every occurrence agrees with the browser
behavior of keeping only the first.) -/
def uspSet (ps : List (String × String)) (k v : String) : List (String × String) :=
  if ps.any (fun p => p.1 == k) then ps.map (fun p => if p.1 == k then (k, v) else p)
  else ps ++ [(k, v)]

/-- Assigning `url.search` and reserializing, for URLs without fragments:
any existing query is replaced by the given one. -/
def setSearch (url q : String) : String :=
  (jsSplit '?' url).headD url ++ "?" ++ q

/-- JSON values, as produced by `response.json()`.  Numbers are modelled as
integers, which covers every value this code inspects. -/
inductive JsonValue where
  | null
  | bool (b : Bool)
  | num (n : Int)
  | str (s : String)
  | arr (elems : List JsonValue)
  | obj (fields : List (String × JsonValue))

/-- Look up a key in a JSON object field list (first occurrence). -/
def jsonLookup (fields : List (String × JsonValue)) (k : String) : Option JsonValue :=
  (fields.find? (fun p => p.1 == k)).map (fun p => p.2)

/-- Read a string-valued field of a JSON object; any other shape is treated
as absent. -/
def jsonStrField (j : JsonValue) (k : String) : Option String :=
  match j with
  | .obj fields =>
    match jsonLookup fields k with
    | some (.str s) => some s
    | _ => none
  | _ => none

/-- Verified token information (`AuthInfo` from `types.js`): the token, the
client it was issued to, its granted scopes, and its expiry. -/
structure AuthInfo where
  token : String
  clientId : String
  scopes : List String
  expiresAt : Nat
deriving Repr, DecidableEq

/-- The errors a token verification function may raise, mirroring the
`instanceof` discrimination in the middleware catch block: the recognized
OAuth error classes from `errors.js` (`InvalidTokenError`,
`InsufficientScopeError`, `ServerError`, any other `OAuthError` subclass
carrying its own error code) and arbitrary non-OAuth errors. -/
inductive OAuthThrown where
  | invalidToken (message : String)
  | insufficientScope (message : String)
  | serverError (message : String)
  | oauthOther (code : String) (message : String)
  | generic (message : String)
deriving Repr, DecidableEq

/-- An HTTP response sent by the middleware: status, optional
WWW-Authenticate header, and the standardized error body fields. -/
structure BearerResponse where
  status : Nat
  wwwAuthenticate : Option String
  errorCode : String
  errorDescription : String
deriving Repr, DecidableEq

/-- Outcome of the middleware: either continue to the downstream handler
with the verified identity attached, or respond with an error. -/
inductive BearerOutcome where
  | next (info : AuthInfo)
  | respond (r : BearerResponse)
deriving Repr, DecidableEq

/-- The catch block of `requireBearerAuth`: map a thrown error to an HTTP
response.  Error code strings for the OAuth classes are modelled from the
spec error taxonomy (`errors.js` is not among the sources): `invalid_token`,
`insufficient_scope`, `server_error`. -/
def errorToResponse : OAuthThrown → BearerResponse
  | .invalidToken m =>
    { status := 401,
      wwwAuthenticate :=
        some ("Bearer error=\"invalid_token\", error_description=\"" ++ m ++ "\""),
      errorCode := "invalid_token", errorDescription := m }
  | .insufficientScope m =>
    { status := 403,
      wwwAuthenticate :=
        some ("Bearer error=\"insufficient_scope\", error_description=\"" ++ m ++ "\""),
      errorCode := "insufficient_scope", errorDescription := m }
  | .serverError m =>
    { status := 500, wwwAuthenticate := none,
      errorCode := "server_error", errorDescription := m }
  | .oauthOther c m =>
    { status := 400, wwwAuthenticate := none, errorCode := c, errorDescription := m }
  | .generic _ =>
    { status := 500, wwwAuthenticate := none,
      errorCode := "server_error", errorDescription := "Internal Server Error" }

/-- The bearer-auth middleware.  Besides the outcome it returns the list of
tokens passed to the verification function, so that "the verifier was called
with exactly this token" and "the verifier was never called" are provable
statements.  Follows the source line by line: missing or empty header, then
`split(' ')` with scheme and second-segment checks, then verification, then
the required-scope check. -/
def requireBearerAuth (requiredScopes : List String)
    (verifyToken : String → Except OAuthThrown AuthInfo)
    (authHeader : Option String) : BearerOutcome × List String :=
  match authHeader with
  | none =>
    (.respond (errorToResponse (.invalidToken "Missing Authorization header")), [])
  | some h =>
    if h = "" then
      (.respond (errorToResponse (.invalidToken "Missing Authorization header")), [])
    else
      let parts := jsSplit ' ' h
      let scheme := parts.headD ""
      let token := (parts.get? 1).getD ""
      if strToLower scheme != "bearer" || token == "" then
        (.respond (errorToResponse
          (.invalidToken "Invalid Authorization header format, expected Bearer TOKEN")), [])
      else
        match verifyToken token with
        | .error e => (.respond (errorToResponse e), [token])
        | .ok authInfo =>
          if requiredScopes.length > 0
              && !(requiredScopes.all (fun s => authInfo.scopes.contains s)) then
            (.respond (errorToResponse (.insufficientScope "Insufficient scope")), [token])
          else
            (.next authInfo, [token])

/-- Full client information (`OAuthClientInformationFull`). -/
structure OAuthClientInformationFull where
  client_id : String
  client_secret : Option String
  redirect_uris : List String
deriving Repr, DecidableEq

/-- A token revocation request. -/
structure OAuthTokenRevocationRequest where
  token : String
  token_type_hint : Option String
deriving Repr, DecidableEq

/-- Parameters of an authorization request (`AuthorizationParams`). -/
structure AuthorizationParams where
  redirectUri : String
  codeChallenge : String
  state : Option String
  scopes : Option (List String)
deriving Repr, DecidableEq

/-- The endpoint configuration of the eager proxy provider
(`ProxyEndpoints`). -/
structure ProxyEndpoints where
  authorizationUrl : Option String
  tokenUrl : Option String
  revocationUrl : Option String
  registrationUrl : Option String
deriving Repr, DecidableEq

/-- Body of an upstream HTTP request issued by the provider. -/
inductive RequestBody where
  | noBody
  | form (params : List (String × String))
  | jsonClient (client : OAuthClientInformationFull)
deriving Repr, DecidableEq

/-- An upstream HTTP request, as observed by the fetch layer. -/
structure HttpRequest where
  url : String
  body : RequestBody
deriving Repr, DecidableEq

/-- An upstream HTTP response: status code and JSON body. -/
structure UpstreamResponse where
  status : Nat
  body : JsonValue

/-- The `response.ok` predicate of the fetch API: status in [200, 300). -/
def respOk (r : UpstreamResponse) : Bool :=
  decide (200 ≤ r.status) && decide (r.status < 300)

/-- The ambient fetch layer, mapping each request to its response. -/
def FetchOracle : Type := HttpRequest → UpstreamResponse

/-- Failure modes of the proxied operations, in the vocabulary of the spec
error taxonomy: `configurationError` models the plain
`Error("No ... endpoint configured")` throws, `upstream` models the
`ServerError` thrown on a non-2xx upstream response (carrying the upstream
status code, which the source embeds in the message), and `validationError`
models a Zod schema rejection of the response body. -/
inductive ProxyError where
  | configurationError (message : String)
  | upstream (status : Nat) (message : String)
  | validationError (message : String)
deriving Repr, DecidableEq

/-- A token set returned by the upstream server.
Modelled from the spec: `OAuthTokens` and `OAuthTokensSchema` live in
`shared/auth.js`, which is not among the sources; the spec data model gives
the `TokenSet` shape as required `accessToken` and `tokenType` plus optional
`expiresIn` (seconds) and `refreshToken`. -/
structure OAuthTokens where
  accessToken : String
  tokenType : String
  expiresIn : Option Int
  refreshToken : Option String
deriving Repr, DecidableEq

/-- Modelled from the spec: the validation core of `OAuthTokensSchema`
(`shared/auth.js`, not among the sources).  A JSON value parses exactly when
it is an object whose `accessToken` and `tokenType` fields are strings and
whose optional `expiresIn` and `refreshToken` fields, when present, are a
number and a string respectively. -/
def oauthTokensOfJson (j : JsonValue) : Option OAuthTokens :=
  match j with
  | .obj fields =>
    match jsonLookup fields "accessToken", jsonLookup fields "tokenType" with
    | some (.str a), some (.str t) =>
      match jsonLookup fields "expiresIn", jsonLookup fields "refreshToken" with
      | none, none => some ⟨a, t, none, none⟩
      | some (.num n), none => some ⟨a, t, some n, none⟩
      | none, some (.str r) => some ⟨a, t, none, some r⟩
      | some (.num n), some (.str r) => some ⟨a, t, some n, some r⟩
      | _, _ => none
    | _, _ => none
  | _ => none

/-- The `OAuthTokensSchema.parse` call: a schema mismatch becomes a
`validationError` rather than a silently coerced value. -/
def OAuthTokensSchema.parse (j : JsonValue) : Except ProxyError OAuthTokens :=
  match oauthTokensOfJson j with
  | some t => .ok t
  | none => .error (.validationError "OAuthTokens")

/-- Query parameters assembled by `authorize`: the five required OAuth
parameters in source order, then `state` and `scope` added via
`URLSearchParams.set` when truthy. -/
def authorizeSearchParams (client : OAuthClientInformationFull)
    (params : AuthorizationParams) : List (String × String) :=
  let base := [("client_id", client.client_id), ("response_type", "code"),
    ("redirect_uri", params.redirectUri), ("code_challenge", params.codeChallenge),
    ("code_challenge_method", "S256")]
  let withState :=
    if optTruthy params.state then uspSet base "state" (params.state.getD "") else base
  if listTruthy params.scopes then
    uspSet withState "scope" (joinWith " " (params.scopes.getD []))
  else withState

/-- The `authorize` operation of the eager proxy provider: fails when no
authorization endpoint is configured, otherwise redirects (the returned
string is the redirect target).  It performs no upstream call, which the
always-empty request list records. -/
def ProxyOAuthServerProvider.authorize (eps : ProxyEndpoints)
    (client : OAuthClientInformationFull) (params : AuthorizationParams) :
    Except ProxyError String × List HttpRequest :=
  if optTruthy eps.authorizationUrl then
    (.ok (setSearch (eps.authorizationUrl.getD "")
      (serializeForm (authorizeSearchParams client params))), [])
  else
    (.error (.configurationError "No authorization endpoint configured"), [])

/-- The `exchangeAuthorizationCode` operation of the eager proxy provider:
form-encoded POST to the token URL; non-2xx fails with the upstream status;
a 2xx body is validated against the token schema. -/
def ProxyOAuthServerProvider.exchangeAuthorizationCode (eps : ProxyEndpoints)
    (client : OAuthClientInformationFull) (authorizationCode : String)
    (fetch : FetchOracle) : Except ProxyError OAuthTokens × List HttpRequest :=
  if optTruthy eps.tokenUrl then
    let req : HttpRequest :=
      { url := eps.tokenUrl.getD "",
        body := .form [("grant_type", "authorization_code"),
          ("client_id", client.client_id),
          ("client_secret", client.client_secret.getD ""),
          ("code", authorizationCode)] }
    let resp := fetch req
    if respOk resp then
      match OAuthTokensSchema.parse resp.body with
      | .ok t => (.ok t, [req])
      | .error e => (.error e, [req])
    else
      (.error (.upstream resp.status "Token exchange failed"), [req])
  else
    (.error (.configurationError "No token endpoint configured"), [])

/-- The `exchangeRefreshToken` operation of the eager proxy provider. -/
def ProxyOAuthServerProvider.exchangeRefreshToken (eps : ProxyEndpoints)
    (client : OAuthClientInformationFull) (refreshToken : String)
    (scopes : Option (List String)) (fetch : FetchOracle) :
    Except ProxyError OAuthTokens × List HttpRequest :=
  if optTruthy eps.tokenUrl then
    let baseParams := [("grant_type", "refresh_token"),
      ("client_id", client.client_id),
      ("client_secret", client.client_secret.getD ""),
      ("refresh_token", refreshToken)]
    let sendParams :=
      if listTruthy scopes then
        uspSet baseParams "scope" (joinWith " " (scopes.getD []))
      else baseParams
    let req : HttpRequest := { url := eps.tokenUrl.getD "", body := .form sendParams }
    let resp := fetch req
    if respOk resp then
      match OAuthTokensSchema.parse resp.body with
      | .ok t => (.ok t, [req])
      | .error e => (.error e, [req])
    else
      (.error (.upstream resp.status "Token refresh failed"), [req])
  else
    (.error (.configurationError "No token endpoint configured"), [])

/-- The body of the `revokeToken` closure installed by the constructor of the
eager proxy provider. -/
def ProxyOAuthServerProvider.revokeTokenImpl (eps : ProxyEndpoints)
    (client : OAuthClientInformationFull) (request : OAuthTokenRevocationRequest)
    (fetch : FetchOracle) : Except ProxyError Unit × List HttpRequest :=
  if optTruthy eps.revocationUrl then
    let baseParams := [("token", request.token),
      ("client_id", client.client_id),
      ("client_secret", client.client_secret.getD "")]
    let sendParams :=
      match request.token_type_hint with
      | some hint => uspSet baseParams "token_type_hint" hint
      | none => baseParams
    let req : HttpRequest := { url := eps.revocationUrl.getD "", body := .form sendParams }
    let resp := fetch req
    if respOk resp then (.ok (), [req])
    else (.error (.upstream resp.status "Token revocation failed"), [req])
  else
    (.error (.configurationError "No revocation endpoint configured"), [])

/-- The body of the `registerClient` closure of the eager proxy provider
clients store: JSON POST of the client record; a 2xx response body is
returned as parsed JSON without further validation. -/
def ProxyOAuthServerProvider.registerClientImpl (registrationUrl : String)
    (client : OAuthClientInformationFull) (fetch : FetchOracle) :
    Except ProxyError JsonValue × List HttpRequest :=
  let req : HttpRequest := { url := registrationUrl, body := .jsonClient client }
  let resp := fetch req
  if respOk resp then (.ok resp.body, [req])
  else (.error (.upstream resp.status "Client registration failed"), [req])

/-- The clients store of the eager proxy provider: `registerClient` is an
optional capability, structurally absent unless a registration URL is
configured. -/
structure RegisteredClientsStore where
  registerClient :
    Option (OAuthClientInformationFull → FetchOracle →
      Except ProxyError JsonValue × List HttpRequest)

/-- The eager proxy provider as constructed: its endpoints and its optional
`revokeToken` capability. -/
structure ProxyProviderShape where
  endpoints : ProxyEndpoints
  revokeToken :
    Option (OAuthClientInformationFull → OAuthTokenRevocationRequest → FetchOracle →
      Except ProxyError Unit × List HttpRequest)

/-- The constructor of `ProxyOAuthServerProvider`: the `revokeToken`
capability is installed only when `options.endpoints?.revocationUrl` is
truthy. -/
def mkProxyProvider (opts : ProxyEndpoints) : ProxyProviderShape :=
  { endpoints := opts,
    revokeToken :=
      if optTruthy opts.revocationUrl then
        some (fun c r f => ProxyOAuthServerProvider.revokeTokenImpl opts c r f)
      else none }

/-- The `clientsStore` getter: the spread `...(registrationUrl && {...})`
installs `registerClient` only when the registration URL is truthy. -/
def ProxyOAuthServerProvider.clientsStore (p : ProxyProviderShape) :
    RegisteredClientsStore :=
  { registerClient :=
      if optTruthy p.endpoints.registrationUrl then
        some (fun c f =>
          ProxyOAuthServerProvider.registerClientImpl
            (p.endpoints.registrationUrl.getD "") c f)
      else none }

/-- Endpoint configuration of the lazy-metadata proxy provider variant,
whose field names are `revokeUrl` and `registerUrl`. -/
structure LazyProxyEndpoints where
  authorizationUrl : Option String
  tokenUrl : Option String
  revokeUrl : Option String
  registerUrl : Option String
deriving Repr, DecidableEq

/-- Options of the lazy-metadata proxy provider variant: an optional
upstream metadata URL plus explicit endpoint overrides. -/
structure LazyProxyOptions where
  metadataUrl : Option String
  endpoints : LazyProxyEndpoints
deriving Repr, DecidableEq

/-- The `getMetadata` method of the lazy variant, on a first call (empty
cache): no metadata URL yields no metadata without any request; otherwise
the metadata document is fetched, a non-2xx response failing upstream and a
2xx body being cached as-is. -/
def lazyGetMetadata (cfg : LazyProxyOptions) (fetch : FetchOracle) :
    Except ProxyError (Option JsonValue) × List HttpRequest :=
  if optTruthy cfg.metadataUrl then
    let req : HttpRequest := { url := cfg.metadataUrl.getD "", body := .noBody }
    let resp := fetch req
    if respOk resp then (.ok (some resp.body), [req])
    else (.error (.upstream resp.status "Failed to fetch OAuth metadata"), [req])
  else
    (.ok none, [])

/-- The `authorize` method of the lazy variant: it first obtains the
discovery metadata, then resolves the authorization endpoint as
`endpoints.authorizationUrl || metadata?.authorization_endpoint`, failing
with the configuration error when neither is truthy. -/
def lazyAuthorize (cfg : LazyProxyOptions) (client : OAuthClientInformationFull)
    (params : AuthorizationParams) (fetch : FetchOracle) :
    Except ProxyError String × List HttpRequest :=
  match lazyGetMetadata cfg fetch with
  | (.error e, tr) => (.error e, tr)
  | (.ok md, tr) =>
    let fromMeta : Option String :=
      md.bind (fun j => jsonStrField j "authorization_endpoint")
    let chosen : Option String :=
      if optTruthy cfg.endpoints.authorizationUrl then cfg.endpoints.authorizationUrl
      else fromMeta
    if optTruthy chosen then
      (.ok (setSearch (chosen.getD "")
        (serializeForm (authorizeSearchParams client params))), tr)
    else
      (.error (.configurationError "No authorization endpoint configured"), tr)

/-- The `exchangeAuthorizationCode` method of the lazy variant: it obtains
the discovery metadata, resolves the token endpoint as
`endpoints.tokenUrl || metadata?.token_endpoint`, posts the form-encoded
exchange request, and on a 2xx response returns `response.json()` directly,
with no schema validation of the body. -/
def lazyExchangeAuthorizationCode (cfg : LazyProxyOptions)
    (client : OAuthClientInformationFull) (authorizationCode : String)
    (fetch : FetchOracle) : Except ProxyError JsonValue × List HttpRequest :=
  match lazyGetMetadata cfg fetch with
  | (.error e, tr) => (.error e, tr)
  | (.ok md, tr) =>
    let fromMeta : Option String :=
      md.bind (fun j => jsonStrField j "token_endpoint")
    let chosen : Option String :=
      if optTruthy cfg.endpoints.tokenUrl then cfg.endpoints.tokenUrl else fromMeta
    if optTruthy chosen then
      let req : HttpRequest :=
        { url := chosen.getD "",
          body := .form [("grant_type", "authorization_code"),
            ("client_id", client.client_id),
            ("client_secret", client.client_secret.getD ""),
            ("code", authorizationCode)] }
      let resp := fetch req
      if respOk resp then (.ok resp.body, tr ++ [req])
      else (.error (.upstream resp.status "Token exchange failed"), tr ++ [req])
    else
      (.error (.configurationError "No token endpoint configured"), tr)

/-- The `exchangeRefreshToken` method of the lazy variant: same endpoint
resolution and transport as the code exchange, with the refresh grant and an
optional `scope` parameter; a 2xx body is likewise returned as
`response.json()` without schema validation. -/
def lazyExchangeRefreshToken (cfg : LazyProxyOptions)
    (client : OAuthClientInformationFull) (refreshToken : String)
    (scopes : Option (List String)) (fetch : FetchOracle) :
    Except ProxyError JsonValue × List HttpRequest :=
  match lazyGetMetadata cfg fetch with
  | (.error e, tr) => (.error e, tr)
  | (.ok md, tr) =>
    let fromMeta : Option String :=
      md.bind (fun j => jsonStrField j "token_endpoint")
    let chosen : Option String :=
      if optTruthy cfg.endpoints.tokenUrl then cfg.endpoints.tokenUrl else fromMeta
    if optTruthy chosen then
      let baseParams := [("grant_type", "refresh_token"),
        ("client_id", client.client_id),
        ("client_secret", client.client_secret.getD ""),
        ("refresh_token", refreshToken)]
      let sendParams :=
        if listTruthy scopes then
          uspSet baseParams "scope" (joinWith " " (scopes.getD []))
        else baseParams
      let req : HttpRequest := { url := chosen.getD "", body := .form sendParams }
      let resp := fetch req
      if respOk resp then (.ok resp.body, tr ++ [req])
      else (.error (.upstream resp.status "Token refresh failed"), tr ++ [req])
    else
      (.error (.configurationError "No token endpoint configured"), tr)

/-- The view of a provider taken by the metadata handler: whether it is a
proxy provider (the handler tests `provider instanceof
ProxyOAuthServerProvider`), the upstream URLs it exposes, and whether the
optional `revokeToken` and `clientsStore.registerClient` capabilities are
present. -/
structure ProviderMetaView where
  isProxy : Bool
  authorizationUrl : Option String
  tokenUrl : Option String
  revocationUrl : Option String
  registrationUrl : Option String
  hasRevokeToken : Bool
  hasRegisterClient : Bool
deriving Repr, DecidableEq

/-- The assembled RFC 8414 metadata document, restricted to the fields whose
values depend on the provider.  `none` models a field that is omitted from
the serialized JSON (`undefined`). -/
structure AuthMetadataDoc where
  issuer : String
  authorization_endpoint : String
  token_endpoint : String
  revocation_endpoint : Option String
  revocation_endpoint_auth_methods_supported : Option (List String)
  registration_endpoint : Option String
deriving Repr, DecidableEq

/-- The handler helper `buildUrl`, modelling `new URL(path, issuer).href`
for an issuer without path, query or fragment and an absolute local path. -/
def buildUrl (issuer path : String) : String := issuer ++ path

/-- The proxy-aware `metadataHandler`: each endpoint defaults to
`issuer + localPath` and is overridden by the proxy provider upstream URL
when one is exposed; `revocation_endpoint` (with its auth-methods field) and
`registration_endpoint` are populated only when the matching capability is
present. -/
def metadataHandler (v : ProviderMetaView) (issuer : String) : AuthMetadataDoc :=
  let authorization_endpoint :=
    if v.isProxy && optTruthy v.authorizationUrl then v.authorizationUrl.getD ""
    else buildUrl issuer "/authorize"
  let token_endpoint :=
    if v.isProxy && optTruthy v.tokenUrl then v.tokenUrl.getD ""
    else buildUrl issuer "/token"
  let revocation_endpoint : Option String :=
    if v.hasRevokeToken then
      some (if v.isProxy && optTruthy v.revocationUrl then v.revocationUrl.getD ""
        else buildUrl issuer "/revoke")
    else none
  let registration_endpoint : Option String :=
    if v.hasRegisterClient then
      some (if v.isProxy && optTruthy v.registrationUrl then v.registrationUrl.getD ""
        else buildUrl issuer "/register")
    else none
  { issuer := issuer,
    authorization_endpoint := authorization_endpoint,
    token_endpoint := token_endpoint,
    revocation_endpoint := revocation_endpoint,
    revocation_endpoint_auth_methods_supported :=
      match revocation_endpoint with
      | some _ => some ["client_secret_post"]
      | none => none,
    registration_endpoint := registration_endpoint }

/-- The earlier issuer-only `metadataHandler` variant: every advertised
endpoint is built from the issuer and the local path, with the same
capability-conditional omission of the revocation and registration fields;
upstream URLs of a proxy provider are never consulted. -/
def metadataHandlerBasic (v : ProviderMetaView) (issuer : String) : AuthMetadataDoc :=
  { issuer := issuer,
    authorization_endpoint := buildUrl issuer "/authorize",
    token_endpoint := buildUrl issuer "/token",
    revocation_endpoint :=
      if v.hasRevokeToken then some (buildUrl issuer "/revoke") else none,
    revocation_endpoint_auth_methods_supported :=
      if v.hasRevokeToken then some ["client_secret_post"] else none,
    registration_endpoint :=
      if v.hasRegisterClient then some (buildUrl issuer "/register") else none }

/-- Progress of one caller through `getMetadata` of the lazy variant.  The
method body has two atomic segments separated by its awaits: the synchronous
prefix `if (!this._metadata) { fetch(...) }` (cache check plus fetch start),
and the continuation that stores the parsed body into the cache. -/
inductive FetchPhase where
  | ready
  | fetching
  | finished
deriving Repr, DecidableEq

/-- Shared state of two concurrent first callers of `getMetadata`: the
memoization cache, the number of fetches started, the number currently in
flight, the largest number ever simultaneously in flight, and each caller
phase. -/
structure MetaRaceState where
  cache : Bool
  started : Nat
  inFlight : Nat
  maxInFlight : Nat
  taskA : FetchPhase
  taskB : FetchPhase
deriving Repr, DecidableEq

/-- Run one atomic segment of the chosen caller (`true` picks caller A):
a ready caller checks the cache, either finishing immediately or starting a
fetch; a fetching caller completes, storing the result in the cache. -/
def metaStep (s : MetaRaceState) (pickA : Bool) : MetaRaceState :=
  let ph := if pickA then s.taskA else s.taskB
  match ph with
  | .ready =>
    if s.cache then
      if pickA then { s with taskA := .finished } else { s with taskB := .finished }
    else
      let s2 := { s with
        started := s.started + 1
        inFlight := s.inFlight + 1
        maxInFlight := max s.maxInFlight (s.inFlight + 1) }
      if pickA then { s2 with taskA := .fetching } else { s2 with taskB := .fetching }
  | .fetching =>
    let s2 := { s with cache := true, inFlight := s.inFlight - 1 }
    if pickA then { s2 with taskA := .finished } else { s2 with taskB := .finished }
  | .finished => s

/-- Initial state: empty cache, both callers about to run their cache check. -/
def metaRaceInit : MetaRaceState :=
  { cache := false, started := 0, inFlight := 0, maxInFlight := 0,
    taskA := .ready, taskB := .ready }

/-- Run a schedule, an interleaving of the two callers. -/
def metaRun (sched : List Bool) : MetaRaceState :=
  sched.foldl metaStep metaRaceInit

/-- Truthiness of an optional string unfolded: a present, non-empty value. -/
theorem optTruthy_iff (o : Option String) :
    optTruthy o = true ↔ ∃ u, o = some u ∧ u ≠ "" := by
  cases o with
  | none => simp [optTruthy]
  | some s => simp [optTruthy]

/-- C1: every non-2xx upstream response to a token exchange, a refresh, a
revocation, or a registration call makes the proxied operation fail with an
upstream error carrying exactly the upstream status code; it is never
treated as success. -/
theorem proxy_non2xx_upstream_error (eps : ProxyEndpoints)
    (client : OAuthClientInformationFull) (authorizationCode refreshTok : String)
    (scopes : Option (List String)) (rreq : OAuthTokenRevocationRequest)
    (registrationUrl : String) (resp : UpstreamResponse)
    (hbad : respOk resp = false) :
    (optTruthy eps.tokenUrl = true →
      (ProxyOAuthServerProvider.exchangeAuthorizationCode eps client authorizationCode
        (fun _ => resp)).1 = .error (.upstream resp.status "Token exchange failed"))
    ∧ (optTruthy eps.tokenUrl = true →
      (ProxyOAuthServerProvider.exchangeRefreshToken eps client refreshTok scopes
        (fun _ => resp)).1 = .error (.upstream resp.status "Token refresh failed"))
    ∧ (optTruthy eps.revocationUrl = true →
      (ProxyOAuthServerProvider.revokeTokenImpl eps client rreq
        (fun _ => resp)).1 = .error (.upstream resp.status "Token revocation failed"))
    ∧ ((ProxyOAuthServerProvider.registerClientImpl registrationUrl client
        (fun _ => resp)).1 = .error (.upstream resp.status "Client registration failed")) := by
  refine ⟨fun htu => ?_, fun htu => ?_, fun hrv => ?_, ?_⟩
  · simp [ProxyOAuthServerProvider.exchangeAuthorizationCode, htu, hbad]
  · simp [ProxyOAuthServerProvider.exchangeRefreshToken, htu, hbad]
  · simp [ProxyOAuthServerProvider.revokeTokenImpl, hrv, hbad]
  · simp [ProxyOAuthServerProvider.registerClientImpl, hbad]

/-- C1 witness: with a token URL configured and an upstream 400 response,
`exchangeAuthorizationCode` fails with the upstream error carrying 400. -/
theorem proxy_non2xx_upstream_error_witness :
    respOk { status := 400, body := JsonValue.obj [] } = false
    ∧ optTruthy (some "https://auth.example.com/token") = true
    ∧ (ProxyOAuthServerProvider.exchangeAuthorizationCode
        { authorizationUrl := some "https://auth.example.com/authorize",
          tokenUrl := some "https://auth.example.com/token",
          revocationUrl := none, registrationUrl := none }
        { client_id := "test-client", client_secret := some "test-secret",
          redirect_uris := ["https://example.com/callback"] }
        "code123" (fun _ => { status := 400, body := JsonValue.obj [] })).1 =
      .error (.upstream 400 "Token exchange failed") :=
  ⟨by decide, by decide,
    (proxy_non2xx_upstream_error
      { authorizationUrl := some "https://auth.example.com/authorize",
        tokenUrl := some "https://auth.example.com/token",
        revocationUrl := none, registrationUrl := none }
      { client_id := "test-client", client_secret := some "test-secret",
        redirect_uris := ["https://example.com/callback"] }
      "code123" "rt" none { token := "tok", token_type_hint := none } "u"
      { status := 400, body := JsonValue.obj [] } (by decide)).1 (by decide)⟩

/-- C3: the constructed provider carries the `revokeToken` capability
exactly when a (non-empty) revocation URL was supplied at construction, and
its clients store carries `registerClient` exactly when a registration URL
was supplied; when absent the capability is structurally absent. -/
theorem proxy_capability_present_iff_url (opts : ProxyEndpoints) :
    ((mkProxyProvider opts).revokeToken.isSome = true ↔
      ∃ u, opts.revocationUrl = some u ∧ u ≠ "")
    ∧ ((ProxyOAuthServerProvider.clientsStore
        (mkProxyProvider opts)).registerClient.isSome = true ↔
      ∃ u, opts.registrationUrl = some u ∧ u ≠ "") := by
  constructor
  · rw [← optTruthy_iff]
    unfold mkProxyProvider
    cases h : optTruthy opts.revocationUrl <;> simp [h]
  · rw [← optTruthy_iff]
    unfold ProxyOAuthServerProvider.clientsStore mkProxyProvider
    cases h : optTruthy opts.registrationUrl <;> simp [h]

/-- C9: the lazy `getMetadata` memoization is the naive unsynchronized
fetch-if-empty check.  Interleaving the cache checks of two concurrent first
callers (schedule A-check, B-check, A-store, B-store) starts two upstream
fetches with two simultaneously in flight, violating single-flight
coalescing, while the sequential schedule starts only one. -/
theorem lazy_metadata_fetch_race :
    (metaRun [true, false, true, false]).started = 2
    ∧ (metaRun [true, false, true, false]).maxInFlight = 2
    ∧ (metaRun [true, false, true, false]).cache = true
    ∧ (metaRun [true, true, false, false]).started = 1
    ∧ (metaRun [true, true, false, false]).maxInFlight = 1 :=
  ⟨rfl, rfl, rfl, rfl, rfl⟩

/-- C2 counterexample: in the lazy-metadata provider variant with a metadata
URL configured and no authorization endpoint available anywhere, `authorize`
does fail with the configuration error, but only after issuing an upstream
request (the metadata fetch), so the failure path is not free of upstream
HTTP requests. -/
theorem lazy_authorize_fetches_before_config_error_cx :
    (lazyAuthorize
      { metadataUrl := some "https://up.example/.well-known/oauth-authorization-server",
        endpoints := { authorizationUrl := none, tokenUrl := none,
                       revokeUrl := none, registerUrl := none } }
      { client_id := "c1", client_secret := none, redirect_uris := ["https://cb"] }
      { redirectUri := "https://cb", codeChallenge := "abc", state := none, scopes := none }
      (fun _ => { status := 200, body := JsonValue.obj [] })) =
      (.error (.configurationError "No authorization endpoint configured"),
       [{ url := "https://up.example/.well-known/oauth-authorization-server",
          body := .noBody }])
    ∧ (lazyAuthorize
      { metadataUrl := some "https://up.example/.well-known/oauth-authorization-server",
        endpoints := { authorizationUrl := none, tokenUrl := none,
                       revokeUrl := none, registerUrl := none } }
      { client_id := "c1", client_secret := none, redirect_uris := ["https://cb"] }
      { redirectUri := "https://cb", codeChallenge := "abc", state := none, scopes := none }
      (fun _ => { status := 200, body := JsonValue.obj [] })).2 ≠ [] :=
  ⟨rfl, by decide⟩

/-- C2 (amended): an eager-provider operation whose required endpoint is not
configured fails with the configuration error and issues no upstream
request; the lazy variant behaves the same when no metadata URL is
configured, while with a metadata URL configured the configuration failure
of `authorize` is preceded by exactly the single metadata fetch. -/
theorem proxy_missing_endpoint_config_error (eps : ProxyEndpoints)
    (client : OAuthClientInformationFull) (params : AuthorizationParams)
    (authorizationCode refreshTok : String) (scopes : Option (List String))
    (rreq : OAuthTokenRevocationRequest) (fetch : FetchOracle) :
    (optTruthy eps.authorizationUrl = false →
      ProxyOAuthServerProvider.authorize eps client params =
        (.error (.configurationError "No authorization endpoint configured"), []))
    ∧ (optTruthy eps.tokenUrl = false →
      ProxyOAuthServerProvider.exchangeAuthorizationCode eps client authorizationCode fetch =
        (.error (.configurationError "No token endpoint configured"), []))
    ∧ (optTruthy eps.tokenUrl = false →
      ProxyOAuthServerProvider.exchangeRefreshToken eps client refreshTok scopes fetch =
        (.error (.configurationError "No token endpoint configured"), []))
    ∧ (optTruthy eps.revocationUrl = false →
      ProxyOAuthServerProvider.revokeTokenImpl eps client rreq fetch =
        (.error (.configurationError "No revocation endpoint configured"), []))
    ∧ (∀ lcfg : LazyProxyOptions, optTruthy lcfg.metadataUrl = false →
      optTruthy lcfg.endpoints.authorizationUrl = false →
      lazyAuthorize lcfg client params fetch =
        (.error (.configurationError "No authorization endpoint configured"), []))
    ∧ (∀ lcfg : LazyProxyOptions, optTruthy lcfg.metadataUrl = true →
      optTruthy lcfg.endpoints.authorizationUrl = false →
      ∀ resp : UpstreamResponse, respOk resp = true →
      optTruthy (jsonStrField resp.body "authorization_endpoint") = false →
      lazyAuthorize lcfg client params (fun _ => resp) =
        (.error (.configurationError "No authorization endpoint configured"),
         [{ url := lcfg.metadataUrl.getD "", body := .noBody }])) := by
  refine ⟨fun ha => ?_, fun htu => ?_, fun htu => ?_, fun hrv => ?_,
    fun lcfg hm ha => ?_, fun lcfg hm ha resp hok hj => ?_⟩
  · simp [ProxyOAuthServerProvider.authorize, ha]
  · simp [ProxyOAuthServerProvider.exchangeAuthorizationCode, htu]
  · simp [ProxyOAuthServerProvider.exchangeRefreshToken, htu]
  · simp [ProxyOAuthServerProvider.revokeTokenImpl, hrv]
  · simp [lazyAuthorize, lazyGetMetadata, hm, ha, show optTruthy none = false from rfl]
  · simp [lazyAuthorize, lazyGetMetadata, hm, ha, hok, hj]

/-- C2 witness: a provider with no token endpoint rejects a code exchange
with the configuration error without any upstream request. -/
theorem proxy_missing_endpoint_config_error_witness :
    optTruthy (none : Option String) = false
    ∧ ProxyOAuthServerProvider.exchangeAuthorizationCode
        { authorizationUrl := some "https://auth.example.com/authorize",
          tokenUrl := none, revocationUrl := none, registrationUrl := none }
        { client_id := "c1", client_secret := none, redirect_uris := ["https://cb"] }
        "code123" (fun _ => { status := 200, body := JsonValue.obj [] }) =
      (.error (.configurationError "No token endpoint configured"), []) :=
  ⟨by decide,
    (proxy_missing_endpoint_config_error
      { authorizationUrl := some "https://auth.example.com/authorize",
        tokenUrl := none, revocationUrl := none, registrationUrl := none }
      { client_id := "c1", client_secret := none, redirect_uris := ["https://cb"] }
      { redirectUri := "https://cb", codeChallenge := "abc", state := none, scopes := none }
      "code123" "rt" none { token := "tok", token_type_hint := none }
      (fun _ => { status := 200, body := JsonValue.obj [] })).2.1 (by decide)⟩

/-- C4 counterexample: the issuer-only metadata handler variant never
advertises an upstream URL: for a proxy provider that exposes an explicit
upstream authorization URL it still advertises issuer + local path. -/
theorem metadata_basic_ignores_upstream_url_cx :
    (metadataHandlerBasic
      { isProxy := true,
        authorizationUrl := some "https://auth.example.com/authorize",
        tokenUrl := some "https://auth.example.com/token",
        revocationUrl := some "https://auth.example.com/revoke",
        registrationUrl := some "https://auth.example.com/register",
        hasRevokeToken := true, hasRegisterClient := true }
      "https://mcp.example.com").authorization_endpoint = "https://mcp.example.com/authorize"
    ∧ "https://mcp.example.com/authorize" ≠ "https://auth.example.com/authorize" :=
  ⟨rfl, by decide⟩

/-- C4 (amended): the proxy-aware metadata handler advertises, per endpoint
kind, the upstream URL verbatim when the provider is a proxy exposing one
and issuer + local path otherwise, and omits the revocation fields exactly
when the revoke capability is absent and the registration field exactly when
the register capability is absent; the issuer-only handler variant applies
the same omission biconditionals but always advertises issuer + local
path. -/
theorem metadata_endpoint_resolution (v : ProviderMetaView) (issuer : String) :
    ((metadataHandler v issuer).authorization_endpoint =
      if v.isProxy && optTruthy v.authorizationUrl then v.authorizationUrl.getD ""
      else buildUrl issuer "/authorize")
    ∧ ((metadataHandler v issuer).token_endpoint =
      if v.isProxy && optTruthy v.tokenUrl then v.tokenUrl.getD ""
      else buildUrl issuer "/token")
    ∧ ((metadataHandler v issuer).revocation_endpoint =
      if v.hasRevokeToken then
        some (if v.isProxy && optTruthy v.revocationUrl then v.revocationUrl.getD ""
          else buildUrl issuer "/revoke")
      else none)
    ∧ ((metadataHandler v issuer).revocation_endpoint = none ↔ v.hasRevokeToken = false)
    ∧ ((metadataHandler v issuer).revocation_endpoint_auth_methods_supported = none ↔
      (metadataHandler v issuer).revocation_endpoint = none)
    ∧ ((metadataHandler v issuer).registration_endpoint =
      if v.hasRegisterClient then
        some (if v.isProxy && optTruthy v.registrationUrl then v.registrationUrl.getD ""
          else buildUrl issuer "/register")
      else none)
    ∧ ((metadataHandler v issuer).registration_endpoint = none ↔
      v.hasRegisterClient = false)
    ∧ ((metadataHandlerBasic v issuer).authorization_endpoint = buildUrl issuer "/authorize")
    ∧ ((metadataHandlerBasic v issuer).token_endpoint = buildUrl issuer "/token")
    ∧ ((metadataHandlerBasic v issuer).revocation_endpoint = none ↔
      v.hasRevokeToken = false)
    ∧ ((metadataHandlerBasic v issuer).revocation_endpoint_auth_methods_supported = none ↔
      (metadataHandlerBasic v issuer).revocation_endpoint = none)
    ∧ ((metadataHandlerBasic v issuer).registration_endpoint = none ↔
      v.hasRegisterClient = false) := by
  unfold metadataHandler metadataHandlerBasic
  cases hrv : v.hasRevokeToken <;> cases hrg : v.hasRegisterClient <;> simp [hrv, hrg]

/-- C6: with an authorization URL configured, `authorize` redirects to that
URL carrying exactly the five required query parameters in source order,
plus `state` exactly when a truthy state is provided and `scope` (the
space-joined scopes) exactly when a non-empty scope list is provided. -/
theorem proxy_authorize_query_exact (eps : ProxyEndpoints)
    (client : OAuthClientInformationFull) (params : AuthorizationParams)
    (hurl : optTruthy eps.authorizationUrl = true) :
    ProxyOAuthServerProvider.authorize eps client params =
      (.ok (setSearch (eps.authorizationUrl.getD "") (serializeForm (
        [("client_id", client.client_id), ("response_type", "code"),
         ("redirect_uri", params.redirectUri), ("code_challenge", params.codeChallenge),
         ("code_challenge_method", "S256")]
        ++ (if optTruthy params.state then [("state", params.state.getD "")] else [])
        ++ (if listTruthy params.scopes then
              [("scope", joinWith " " (params.scopes.getD []))] else [])))), []) := by
  unfold ProxyOAuthServerProvider.authorize authorizeSearchParams
  rw [if_pos hurl]
  cases hs : optTruthy params.state <;> cases hsc : listTruthy params.scopes <;>
    simp [hs, hsc, uspSet]

/-- C6 witness: the concrete scenario of the spec, producing exactly the
expected redirect URL with the form-encoded parameter set. -/
theorem proxy_authorize_query_exact_witness :
    optTruthy (some "https://a.example/authorize") = true
    ∧ ProxyOAuthServerProvider.authorize
        { authorizationUrl := some "https://a.example/authorize",
          tokenUrl := some "https://a.example/token",
          revocationUrl := none, registrationUrl := none }
        { client_id := "c1", client_secret := none, redirect_uris := ["https://cb"] }
        { redirectUri := "https://cb", codeChallenge := "abc", state := some "xyz",
          scopes := some ["read", "write"] } =
      (.ok "https://a.example/authorize?client_id=c1&response_type=code&redirect_uri=https%3A%2F%2Fcb&code_challenge=abc&code_challenge_method=S256&state=xyz&scope=read+write", []) :=
  ⟨by decide,
    (proxy_authorize_query_exact
      { authorizationUrl := some "https://a.example/authorize",
        tokenUrl := some "https://a.example/token",
        revocationUrl := none, registrationUrl := none }
      { client_id := "c1", client_secret := none, redirect_uris := ["https://cb"] }
      { redirectUri := "https://cb", codeChallenge := "abc", state := some "xyz",
        scopes := some ["read", "write"] }
      (by decide)).trans (by rfl)⟩

/-- C7 counterexample: in the lazy-metadata provider variant a 2xx response
body that does not parse into a token set is returned as-is by
`exchangeAuthorizationCode`, not rejected with the validation error: the
exchange succeeds with the unvalidated body. -/
theorem lazy_exchange_returns_unvalidated_body_cx :
    oauthTokensOfJson (JsonValue.obj [("accessToken", JsonValue.num 3)]) = none
    ∧ (lazyExchangeAuthorizationCode
        { metadataUrl := none,
          endpoints := { authorizationUrl := none,
                         tokenUrl := some "https://auth.example.com/token",
                         revokeUrl := none, registerUrl := none } }
        { client_id := "c1", client_secret := none, redirect_uris := ["https://cb"] }
        "code123"
        (fun _ => { status := 200,
                    body := JsonValue.obj [("accessToken", JsonValue.num 3)] })).1 =
      .ok (JsonValue.obj [("accessToken", JsonValue.num 3)])
    ∧ (lazyExchangeAuthorizationCode
        { metadataUrl := none,
          endpoints := { authorizationUrl := none,
                         tokenUrl := some "https://auth.example.com/token",
                         revokeUrl := none, registerUrl := none } }
        { client_id := "c1", client_secret := none, redirect_uris := ["https://cb"] }
        "code123"
        (fun _ => { status := 200,
                    body := JsonValue.obj [("accessToken", JsonValue.num 3)] })).1 ≠
      .error (.validationError "OAuthTokens") :=
  ⟨rfl, rfl, fun he => nomatch he⟩

/-- C7 (amended): in the eager provider a 2xx upstream response to a code
exchange or a refresh is exactly the validation of its JSON body against the
token schema: a valid body is returned as the parsed token set and any body
that does not parse into a token set fails with the validation error; in the
lazy-metadata variant the 2xx body is returned as parsed JSON without schema
validation. -/
theorem exchange_2xx_validates_tokenset (eps : ProxyEndpoints)
    (client : OAuthClientInformationFull) (authorizationCode refreshTok : String)
    (scopes : Option (List String)) (resp : UpstreamResponse)
    (htu : optTruthy eps.tokenUrl = true) (hok : respOk resp = true) :
    ((ProxyOAuthServerProvider.exchangeAuthorizationCode eps client authorizationCode
        (fun _ => resp)).1 = OAuthTokensSchema.parse resp.body)
    ∧ ((ProxyOAuthServerProvider.exchangeRefreshToken eps client refreshTok scopes
        (fun _ => resp)).1 = OAuthTokensSchema.parse resp.body)
    ∧ (∀ j, oauthTokensOfJson j = none →
        OAuthTokensSchema.parse j = .error (.validationError "OAuthTokens"))
    ∧ (∀ j t, oauthTokensOfJson j = some t → OAuthTokensSchema.parse j = .ok t)
    ∧ (∀ lcfg : LazyProxyOptions, optTruthy lcfg.endpoints.tokenUrl = true →
        (lazyExchangeAuthorizationCode lcfg client authorizationCode
          (fun _ => resp)).1 = .ok resp.body)
    ∧ (∀ lcfg : LazyProxyOptions, optTruthy lcfg.endpoints.tokenUrl = true →
        (lazyExchangeRefreshToken lcfg client refreshTok scopes
          (fun _ => resp)).1 = .ok resp.body) := by
  refine ⟨?_, ?_, fun j hj => ?_, fun j t hj => ?_, fun lcfg htl => ?_, fun lcfg htl => ?_⟩
  · cases hp : OAuthTokensSchema.parse resp.body <;>
      simp [ProxyOAuthServerProvider.exchangeAuthorizationCode, htu, hok, hp]
  · cases hp : OAuthTokensSchema.parse resp.body <;>
      simp [ProxyOAuthServerProvider.exchangeRefreshToken, htu, hok, hp]
  · simp [OAuthTokensSchema.parse, hj]
  · simp [OAuthTokensSchema.parse, hj]
  · cases hm : optTruthy lcfg.metadataUrl <;>
      simp [lazyExchangeAuthorizationCode, lazyGetMetadata, hm, htl, hok]
  · cases hm : optTruthy lcfg.metadataUrl <;>
      simp [lazyExchangeRefreshToken, lazyGetMetadata, hm, htl, hok]

/-- C7 witness: a 2xx response whose body has a non-string `accessToken`
fails the exchange with the validation error. -/
theorem exchange_2xx_validates_tokenset_witness :
    optTruthy (some "https://auth.example.com/token") = true
    ∧ respOk { status := 200, body := JsonValue.obj [("accessToken", JsonValue.num 3)] } = true
    ∧ oauthTokensOfJson (JsonValue.obj [("accessToken", JsonValue.num 3)]) = none
    ∧ (ProxyOAuthServerProvider.exchangeAuthorizationCode
        { authorizationUrl := none, tokenUrl := some "https://auth.example.com/token",
          revocationUrl := none, registrationUrl := none }
        { client_id := "c1", client_secret := none, redirect_uris := ["https://cb"] }
        "code123"
        (fun _ => { status := 200,
                    body := JsonValue.obj [("accessToken", JsonValue.num 3)] })).1 =
      .error (.validationError "OAuthTokens") :=
  ⟨by decide, by decide, rfl,
    ((exchange_2xx_validates_tokenset
      { authorizationUrl := none, tokenUrl := some "https://auth.example.com/token",
        revocationUrl := none, registrationUrl := none }
      { client_id := "c1", client_secret := none, redirect_uris := ["https://cb"] }
      "code123" "rt" none
      { status := 200, body := JsonValue.obj [("accessToken", JsonValue.num 3)] }
      (by decide) (by decide)).1).trans (by rfl)⟩

/-- Reduction of the middleware on a well-formed two-segment header: the
remaining behavior is verification of the second segment followed by the
scope check. -/
theorem requireBearerAuth_parsed (R : List String)
    (verify : String → Except OAuthThrown AuthInfo) (h t : String)
    (hne : h ≠ "") (hsplit : jsSplit ' ' h = ["Bearer", t]) (ht : t ≠ "") :
    requireBearerAuth R verify (some h) =
      match verify t with
      | .error e => (.respond (errorToResponse e), [t])
      | .ok authInfo =>
        if R.length > 0 && !(R.all fun s => authInfo.scopes.contains s) then
          (.respond (errorToResponse (.insufficientScope "Insufficient scope")), [t])
        else (.next authInfo, [t]) := by
  unfold requireBearerAuth
  dsimp only
  rw [if_neg hne]
  simp only [hsplit, List.headD, List.get? , Option.getD]
  have hcond : (strToLower "Bearer" != "bearer" || t == "") = false := by
    simp [ht, strToLower]
  rw [hcond]
  simp

/-- C5: on a verified token the middleware continues to the downstream
handler exactly when every required scope is among the granted scopes
(exact, order-irrelevant string membership); otherwise it responds 403 with
a WWW-Authenticate value containing `error="insufficient_scope"` (shown as
an explicit concatenation around that substring). -/
theorem bearer_scope_subset_iff (R : List String)
    (verify : String → Except OAuthThrown AuthInfo) (h t : String) (info : AuthInfo)
    (hne : h ≠ "") (hsplit : jsSplit ' ' h = ["Bearer", t]) (ht : t ≠ "")
    (hv : verify t = .ok info) :
    ((requireBearerAuth R verify (some h)).1 = .next info ↔ ∀ r ∈ R, r ∈ info.scopes)
    ∧ (¬ (∀ r ∈ R, r ∈ info.scopes) →
      (requireBearerAuth R verify (some h)).1 =
        .respond { status := 403,
                   wwwAuthenticate := some ("Bearer " ++ "error=\"insufficient_scope\"" ++
                     ", error_description=\"Insufficient scope\""),
                   errorCode := "insufficient_scope",
                   errorDescription := "Insufficient scope" }) := by
  have hrw := requireBearerAuth_parsed R verify h t hne hsplit ht
  rw [hv] at hrw
  dsimp only at hrw
  have hsub : (R.all fun s => info.scopes.contains s) = true ↔ ∀ r ∈ R, r ∈ info.scopes := by
    simp
  cases hall : (R.all fun s => info.scopes.contains s) with
  | true =>
    rw [hall] at hrw
    simp only [Bool.not_true, Bool.and_false, if_false, Bool.false_eq_true] at hrw
    have hs : ∀ r ∈ R, r ∈ info.scopes := hsub.mp hall
    constructor
    · constructor
      · intro _; exact hs
      · intro _; rw [hrw]
    · intro hns; exact absurd hs hns
  | false =>
    have hns : ¬ ∀ r ∈ R, r ∈ info.scopes := fun hs => by
      rw [hsub.mpr hs] at hall; cases hall
    rw [hall] at hrw
    cases R with
    | nil => simp at hall
    | cons a l =>
      simp only [Bool.not_false, Bool.and_true, List.length_cons] at hrw
      have hlen : (decide (l.length + 1 > 0) = true) := by simp
      rw [hlen] at hrw
      simp only [if_true] at hrw
      constructor
      · rw [hrw]
        constructor
        · intro hx; cases hx
        · intro hs; exact absurd hs hns
      · intro _; rw [hrw]; dsimp only; decide

/-- C5 witness: the spec scenario: header `Bearer abc123`, granted scopes
`read`, required scopes `read` and `write`; the middleware responds 403 with
the insufficient-scope challenge. -/
theorem bearer_scope_subset_iff_witness :
    ("Bearer abc123" ≠ "")
    ∧ jsSplit ' ' "Bearer abc123" = ["Bearer", "abc123"]
    ∧ ("abc123" ≠ "")
    ∧ ¬ (∀ r ∈ (["read", "write"] : List String),
        r ∈ ({ token := "abc123", clientId := "client1", scopes := ["read"],
               expiresAt := 0 } : AuthInfo).scopes)
    ∧ (requireBearerAuth ["read", "write"]
        (fun _ => .ok { token := "abc123", clientId := "client1", scopes := ["read"],
                        expiresAt := 0 })
        (some "Bearer abc123")).1 =
      .respond { status := 403,
                 wwwAuthenticate := some ("Bearer " ++ "error=\"insufficient_scope\"" ++
                   ", error_description=\"Insufficient scope\""),
                 errorCode := "insufficient_scope",
                 errorDescription := "Insufficient scope" } :=
  ⟨by decide, by decide, by decide, by decide,
    (bearer_scope_subset_iff ["read", "write"]
      (fun _ => .ok { token := "abc123", clientId := "client1", scopes := ["read"],
                      expiresAt := 0 })
      "Bearer abc123" "abc123"
      { token := "abc123", clientId := "client1", scopes := ["read"], expiresAt := 0 }
      (by decide) (by decide) (by decide) rfl).2 (by decide)⟩

/-- C8 counterexample: a non-OAuth error thrown by the verification function
is not tagged as an invalid-token error: the middleware responds 500 with
the generic `server_error` body, not 401. -/
theorem bearer_generic_error_500_cx :
    ((requireBearerAuth [] (fun _ => .error (.generic "boom")) (some "Bearer tok")).1 =
      .respond { status := 500, wwwAuthenticate := none, errorCode := "server_error",
                 errorDescription := "Internal Server Error" })
    ∧ (∀ r : BearerResponse,
      (requireBearerAuth [] (fun _ => .error (.generic "boom")) (some "Bearer tok")).1 =
        .respond r → r.status ≠ 401) := by
  refine ⟨rfl, fun r hr => ?_⟩
  have h0 : (requireBearerAuth [] (fun _ => .error (.generic "boom")) (some "Bearer tok")).1 =
      .respond { status := 500, wwwAuthenticate := none, errorCode := "server_error",
                 errorDescription := "Internal Server Error" } := rfl
  have h1 := hr.symm.trans h0
  injection h1 with h2
  rw [h2]
  decide

/-- C8 (amended): every error raised by the verification function reaches
the error-to-HTTP mapping under its own recognized kind (invalid token 401,
insufficient scope 403, server error 500, other OAuth error 400), and an
unrecognized error is coerced to a generic 500 `server_error` response
rather than being tagged as an invalid-token error. -/
theorem bearer_verify_error_mapping (R : List String)
    (verify : String → Except OAuthThrown AuthInfo) (h t : String) (e : OAuthThrown)
    (hne : h ≠ "") (hsplit : jsSplit ' ' h = ["Bearer", t]) (ht : t ≠ "")
    (hv : verify t = .error e) :
    ((requireBearerAuth R verify (some h)).1 = .respond (errorToResponse e))
    ∧ (∀ m, (errorToResponse (.invalidToken m)).status = 401)
    ∧ (∀ m, (errorToResponse (.insufficientScope m)).status = 403)
    ∧ (∀ m, (errorToResponse (.serverError m)).status = 500)
    ∧ (∀ c m, (errorToResponse (.oauthOther c m)).status = 400)
    ∧ (∀ m, errorToResponse (.generic m) =
        { status := 500, wwwAuthenticate := none, errorCode := "server_error",
          errorDescription := "Internal Server Error" }) := by
  refine ⟨?_, fun m => rfl, fun m => rfl, fun m => rfl, fun c m => rfl, fun m => rfl⟩
  have hrw := requireBearerAuth_parsed R verify h t hne hsplit ht
  rw [hv] at hrw
  dsimp only at hrw
  rw [hrw]

/-- C8 witness: a recognized server error raised by verification surfaces
under its own mapping. -/
theorem bearer_verify_error_mapping_witness :
    ("Bearer tk" ≠ "")
    ∧ jsSplit ' ' "Bearer tk" = ["Bearer", "tk"]
    ∧ ("tk" ≠ "")
    ∧ (requireBearerAuth ["read"]
        (fun _ => .error (.serverError "upstream exploded")) (some "Bearer tk")).1 =
      .respond (errorToResponse (.serverError "upstream exploded")) :=
  ⟨by decide, by decide, by decide,
    (bearer_verify_error_mapping ["read"]
      (fun _ => .error (.serverError "upstream exploded")) "Bearer tk" "tk"
      (.serverError "upstream exploded")
      (by decide) (by decide) (by decide) rfl).1⟩

/-- C10: the middleware splits the Authorization header on single spaces and
verifies exactly the second segment (any later segments are ignored), while
a header whose second segment is empty or missing is rejected as malformed
with the invalid-token error before the verification function is ever
called (the verified-token trace stays empty). -/
theorem bearer_token_is_second_segment (R : List String)
    (verify : String → Except OAuthThrown AuthInfo) (h : String) (hne : h ≠ "") :
    (∀ t, (jsSplit ' ' h).get? 1 = some t → t ≠ "" →
      strToLower ((jsSplit ' ' h).headD "") = "bearer" →
      (requireBearerAuth R verify (some h)).2 = [t])
    ∧ (((jsSplit ' ' h).get? 1 = some "" ∨ (jsSplit ' ' h).get? 1 = none) →
      (requireBearerAuth R verify (some h)).2 = []
      ∧ (requireBearerAuth R verify (some h)).1 =
        .respond (errorToResponse
          (.invalidToken "Invalid Authorization header format, expected Bearer TOKEN"))) := by
  unfold requireBearerAuth
  try dsimp only
  rw [if_neg hne]
  constructor
  · intro t hget htne hscheme
    simp only [hget, Option.getD_some, hscheme]
    have hc : (("bearer" : String) != "bearer" || t == "") = false := by
      simp [htne]
    rw [hc]
    simp only [Bool.false_eq_true, if_false]
    cases hv : verify t with
    | error e => rfl
    | ok info =>
      try dsimp only
      split <;> rfl
  · intro hor
    have htok : ((jsSplit ' ' h).get? 1).getD "" = "" := by
      rcases hor with hg | hg <;> rw [hg] <;> rfl
    rw [htok]
    have hc : (strToLower ((jsSplit ' ' h).headD "") != "bearer" || ("" : String) == "") = true := by
      simp
    rw [hc]
    exact ⟨rfl, rfl⟩

/-- C10 witness: header `Bearer x y` verifies exactly the token `x`; headers
`Bearer  x` (empty second segment) and any header rejected the same way get
the malformed-header response with the verifier never called. -/
theorem bearer_token_is_second_segment_witness :
    ("Bearer x y" ≠ "")
    ∧ (jsSplit ' ' "Bearer x y").get? 1 = some "x"
    ∧ ("x" ≠ "")
    ∧ strToLower ((jsSplit ' ' "Bearer x y").headD "") = "bearer"
    ∧ (requireBearerAuth [] (fun _ => .error (.generic "nope")) (some "Bearer x y")).2 = ["x"]
    ∧ ("Bearer  x" ≠ "")
    ∧ (jsSplit ' ' "Bearer  x").get? 1 = some ""
    ∧ (requireBearerAuth [] (fun _ => .error (.generic "nope")) (some "Bearer  x")).2 = []
      ∧ (requireBearerAuth [] (fun _ => .error (.generic "nope")) (some "Bearer  x")).1 =
        .respond (errorToResponse
          (.invalidToken "Invalid Authorization header format, expected Bearer TOKEN")) :=
  ⟨by decide, by decide, by decide, by decide,
    (bearer_token_is_second_segment [] (fun _ => .error (.generic "nope")) "Bearer x y"
      (by decide)).1 "x" (by decide) (by decide) (by decide),
    by decide, by decide,
    (bearer_token_is_second_segment [] (fun _ => .error (.generic "nope")) "Bearer  x"
      (by decide)).2 (Or.inl (by decide))⟩
